import Mathlib

/-!
Shallow embedding of the numeric core of `src/calculator.js`
(diabetes risk calculator): CONFIG constant tables, the RiskModel
module (unit conversion, logistic score/probability, per-factor
contributions, elevated-factor flags, what-if delta) and the
TimelineChart snapshot buffer and coordinate mapping.

Raw measurement values are modelled as exact rationals (ℚ); the
logistic probability lives in ℝ via `Real.exp`.
-/

/-- The nine named input fields of an input record. -/
inductive FieldKey
  | age | race | parentHist | sbp | waist | height | fastGlu | cholHDL | cholTri
deriving DecidableEq, Repr

/-- A 9-field input record (raw or SI-converted values). -/
structure InputRecord where
  age        : ℚ
  race       : ℚ
  parentHist : ℚ
  sbp        : ℚ
  waist      : ℚ
  height     : ℚ
  fastGlu    : ℚ
  cholHDL    : ℚ
  cholTri    : ℚ
deriving DecidableEq, Repr

/-- Unit mode keys of the CONFIG.RANGES table (`us` / `si`). -/
inductive UnitMode
  | us | si
deriving DecidableEq, Repr

/-- Logistic-regression betas, CONFIG.BETAS. `sigma` is the intercept. -/
structure BetasT where
  age        : ℚ
  race       : ℚ
  parentHist : ℚ
  sbp        : ℚ
  waist      : ℚ
  height     : ℚ
  fastGlu    : ℚ
  cholHDL    : ℚ
  cholTri    : ℚ
  sigma      : ℚ

/-- CONFIG.BETAS from `src/calculator.js`. -/
def BETAS : BetasT :=
  { age        := 0.0173
    race       := 0.4433
    parentHist := 0.4981
    sbp        := 0.0111
    waist      := 0.0273
    height     := -0.0326
    fastGlu    := 1.5849
    cholHDL    := -0.4718
    cholTri    := 0.242
    sigma      := -9.9808 }

/-- CONFIG.MEANS: population means of the ARIC baseline cohort. -/
def MEANS : InputRecord :=
  { age        := 54
    race       := 0.25
    parentHist := 0.3
    sbp        := 120
    waist      := 97
    height     := 168
    fastGlu    := 5.5
    cholHDL    := 1.3
    cholTri    := 1.7 }

/-- CONFIG.CONVERSIONS: US → SI conversion factors. -/
structure ConversionsT where
  heightToCm : ℚ
  waistToCm  : ℚ
  gluToMmol  : ℚ
  hdlToMmol  : ℚ
  triToMmol  : ℚ

/-- CONFIG.CONVERSIONS from `src/calculator.js`. -/
def CONVERSIONS : ConversionsT :=
  { heightToCm := 2.54
    waistToCm  := 2.54
    gluToMmol  := 1 / 18
    hdlToMmol  := 1 / 38.67
    triToMmol  := 1 / 88.57 }

/-- CONFIG.THRESHOLDS: clinical cut-points (all in SI units). -/
structure ThresholdsT where
  fastGlu_elevated : ℚ
  fastGlu_high     : ℚ
  sbp_elevated     : ℚ
  sbp_high         : ℚ
  cholHDL_low      : ℚ
  cholHDL_veryLow  : ℚ
  cholTri_elevated : ℚ
  cholTri_high     : ℚ
  waist_elevated   : ℚ
  waist_high       : ℚ

/-- CONFIG.THRESHOLDS from `src/calculator.js`. -/
def THRESHOLDS : ThresholdsT :=
  { fastGlu_elevated := 5.6
    fastGlu_high     := 7.0
    sbp_elevated     := 130
    sbp_high         := 160
    cholHDL_low      := 1.0
    cholHDL_veryLow  := 0.8
    cholTri_elevated := 1.7
    cholTri_high     := 2.3
    waist_elevated   := 94
    waist_high       := 102 }

/-- CONFIG.RANGES: slider (min, max, step) per field and unit mode.
Fields absent from the table (race, parentHist) map to `none`,
mirroring the missing object keys in the source. -/
def RANGES : FieldKey → Option (UnitMode → ℚ × ℚ × ℚ)
  | .age     => some fun _m => (20, 80, 1)
  | .sbp     => some fun _m => (80, 220, 1)
  | .height  => some fun m => match m with
      | .us => (48, 84, 1)
      | .si => (122, 213, 1)
  | .waist   => some fun m => match m with
      | .us => (25, 60, 1)
      | .si => (64, 152, 1)
  | .fastGlu => some fun m => match m with
      | .us => (50, 300, 1)
      | .si => (2.8, 16.7, 0.1)
  | .cholHDL => some fun m => match m with
      | .us => (20, 100, 1)
      | .si => (0.5, 2.6, 0.1)
  | .cholTri => some fun m => match m with
      | .us => (50, 500, 1)
      | .si => (0.6, 5.6, 0.1)
  | .race    => none
  | .parentHist => none

/-- Read a named field of a record. -/
def getField (r : InputRecord) : FieldKey → ℚ
  | .age        => r.age
  | .race       => r.race
  | .parentHist => r.parentHist
  | .sbp        => r.sbp
  | .waist      => r.waist
  | .height     => r.height
  | .fastGlu    => r.fastGlu
  | .cholHDL    => r.cholHDL
  | .cholTri    => r.cholTri

/-- Copy of a record with one named field replaced
(the `{ ...rawInputs }` spread followed by a keyed store). -/
def setField (r : InputRecord) (f : FieldKey) (v : ℚ) : InputRecord :=
  match f with
  | .age        => { r with age := v }
  | .race       => { r with race := v }
  | .parentHist => { r with parentHist := v }
  | .sbp        => { r with sbp := v }
  | .waist      => { r with waist := v }
  | .height     => { r with height := v }
  | .fastGlu    => { r with fastGlu := v }
  | .cholHDL    => { r with cholHDL := v }
  | .cholTri    => { r with cholTri := v }

/-- The nine fields in declaration order. -/
def FieldKey.all : List FieldKey :=
  [.age, .race, .parentHist, .sbp, .waist, .height, .fastGlu, .cholHDL, .cholTri]

/-- RiskModel.toSI: identity copy when already metric, otherwise
multiply height/waist/glucose/HDL/triglycerides by the CONFIG
conversion factors. -/
def toSI (inputs : InputRecord) (isMetric : Bool) : InputRecord :=
  if isMetric then inputs
  else
    { inputs with
      height  := inputs.height  * CONVERSIONS.heightToCm
      waist   := inputs.waist   * CONVERSIONS.waistToCm
      fastGlu := inputs.fastGlu * CONVERSIONS.gluToMmol
      cholHDL := inputs.cholHDL * CONVERSIONS.hdlToMmol
      cholTri := inputs.cholTri * CONVERSIONS.triToMmol }

/-- The linear score fed into the logistic function inside
RiskModel.computeProbability. -/
def score (siVals : InputRecord) : ℚ :=
  BETAS.sigma +
  BETAS.age        * siVals.age +
  BETAS.race       * siVals.race +
  BETAS.parentHist * siVals.parentHist +
  BETAS.sbp        * siVals.sbp +
  BETAS.waist      * siVals.waist +
  BETAS.height     * siVals.height +
  BETAS.fastGlu    * siVals.fastGlu +
  BETAS.cholHDL    * siVals.cholHDL +
  BETAS.cholTri    * siVals.cholTri

/-- RiskModel.computeProbability: `1 / (1 + e^(−score))`. -/
noncomputable def computeProbability (siVals : InputRecord) : ℝ :=
  1 / (1 + Real.exp (-(score siVals : ℝ)))

/-- RiskModel.computeContributions: per-field
`β_i × (siValue_i − populationMean_i)`. -/
def computeContributions (siVals : InputRecord) : FieldKey → ℚ
  | .age        => BETAS.age        * (siVals.age        - MEANS.age)
  | .race       => BETAS.race       * (siVals.race       - MEANS.race)
  | .parentHist => BETAS.parentHist * (siVals.parentHist - MEANS.parentHist)
  | .sbp        => BETAS.sbp        * (siVals.sbp        - MEANS.sbp)
  | .waist      => BETAS.waist      * (siVals.waist      - MEANS.waist)
  | .height     => BETAS.height     * (siVals.height     - MEANS.height)
  | .fastGlu    => BETAS.fastGlu    * (siVals.fastGlu    - MEANS.fastGlu)
  | .cholHDL    => BETAS.cholHDL    * (siVals.cholHDL    - MEANS.cholHDL)
  | .cholTri    => BETAS.cholTri    * (siVals.cholTri    - MEANS.cholTri)

/-- Sum of the contribution vector over all 9 fields. -/
def sumContributions (siVals : InputRecord) : ℚ :=
  (FieldKey.all.map (computeContributions siVals)).sum

/-- RiskModel.getElevatedFactors: the ordered list of flagged fields
and the high-waist flag. The triglyceride condition is unit-mode
dependent, exactly as in the source. -/
def getElevatedFactors (siVals rawInputs : InputRecord) (isMetric : Bool) :
    List FieldKey × Bool :=
  ((if THRESHOLDS.fastGlu_elevated ≤ siVals.fastGlu then [FieldKey.fastGlu] else []) ++
   (if THRESHOLDS.sbp_elevated ≤ siVals.sbp then [FieldKey.sbp] else []) ++
   (if siVals.cholHDL ≤ THRESHOLDS.cholHDL_low then [FieldKey.cholHDL] else []) ++
   (if (if isMetric then decide (THRESHOLDS.cholTri_elevated ≤ siVals.cholTri)
        else decide ((150 : ℚ) ≤ rawInputs.cholTri)) then [FieldKey.cholTri] else []) ++
   (if THRESHOLDS.waist_elevated ≤ siVals.waist then [FieldKey.waist] else []),
   decide (THRESHOLDS.waist_high ≤ siVals.waist))

/-- RiskModel.computeWhatIfDelta: percentage-point risk change when a
field is perturbed by `direction × step × 5`, the step looked up in
CONFIG.RANGES for the active unit mode and defaulting to 1
(`CONFIG.RANGES[field]?.[mode]?.[2] ?? 1`). -/
noncomputable def computeWhatIfDelta (rawInputs : InputRecord) (isMetric : Bool)
    (field : FieldKey) (direction : ℚ) : ℝ :=
  let baseProb := computeProbability (toSI rawInputs isMetric)
  let mode := if isMetric then UnitMode.si else UnitMode.us
  let stepSize := (Option.map (fun r => (r mode).2.2) (RANGES field)).getD 1
  let alteredInputs :=
    setField rawInputs field (getField rawInputs field + direction * stepSize * 5)
  let altProb := computeProbability (toSI alteredInputs isMetric)
  (altProb - baseProb) * 100

/-- Spec-side weight table: the 9 non-intercept betas as a function. -/
def weight : FieldKey → ℚ
  | .age        => BETAS.age
  | .race       => BETAS.race
  | .parentHist => BETAS.parentHist
  | .sbp        => BETAS.sbp
  | .waist      => BETAS.waist
  | .height     => BETAS.height
  | .fastGlu    => BETAS.fastGlu
  | .cholHDL    => BETAS.cholHDL
  | .cholTri    => BETAS.cholTri

/-- Spec-side score: `intercept + Σ weight_i × siValue_i` over the 9
weighted fields, written as a sum over the field list (for comparison
with the source's `score`). -/
def scoreSpec (siVals : InputRecord) : ℚ :=
  BETAS.sigma + (FieldKey.all.map (fun f => weight f * getField siVals f)).sum

/-- A snapshot of the TimelineChart module: risk percentage and the
SI value record it was computed from (`{ timestamp, riskPct, siVals }`;
the wall-clock timestamp is not modelled). -/
structure Snapshot where
  riskPct : ℚ
  siVals  : InputRecord
deriving DecidableEq, Repr

/-- TimelineChart.MAX_SNAPSHOTS. -/
def MAX_SNAPSHOTS : ℕ := 20

/-- TimelineChart.addSnapshot on an explicit buffer: shift (drop the
oldest entry) when the cap is reached, then push the new snapshot. -/
def addSnapshot (buf : List Snapshot) (riskPct : ℚ) (siVals : InputRecord) :
    List Snapshot :=
  (if MAX_SNAPSHOTS ≤ buf.length then buf.drop 1 else buf) ++ [⟨riskPct, siVals⟩]

/-- TimelineChart.clear: the buffer after `snapshots.length = 0`. -/
def clearSnapshots : List Snapshot := []

/-- Timeline geometry constants from TimelineChart.render:
`H = 80`, `PAD = {top:10, right:12, bottom:16, left:12}`. -/
def TIMELINE_H : ℚ := 80

/-- PAD.top of the timeline plot. -/
def PAD_top : ℚ := 10

/-- PAD.right of the timeline plot. -/
def PAD_right : ℚ := 12

/-- PAD.bottom of the timeline plot. -/
def PAD_bottom : ℚ := 16

/-- PAD.left of the timeline plot. -/
def PAD_left : ℚ := 12

/-- Plot width: `plotW = W − PAD.left − PAD.right`. -/
def plotW (W : ℚ) : ℚ := W - PAD_left - PAD_right

/-- Plot height: `plotH = H − PAD.top − PAD.bottom`. -/
def plotH : ℚ := TIMELINE_H - PAD_top - PAD_bottom

/-- Vertical maximum: `maxY = Math.max(50, ...snapshots.map(s => s.riskPct))`. -/
def timelineMaxY (snaps : List Snapshot) : ℚ :=
  snaps.foldl (fun m s => max m s.riskPct) 50

/-- Horizontal scale of TimelineChart.render: a lone snapshot is
centered, otherwise indices spread linearly over the plot width. -/
def timelineXScale (W : ℚ) (n : ℕ) (i : ℕ) : ℚ :=
  PAD_left + (if n = 1 then plotW W / 2 else ((i : ℚ) / ((n : ℚ) - 1)) * plotW W)

/-- Vertical scale of TimelineChart.render:
`yScale v = PAD.top + plotH − (v / maxY) × plotH`. -/
def timelineYScale (snaps : List Snapshot) (v : ℚ) : ℚ :=
  PAD_top + plotH - (v / timelineMaxY snaps) * plotH

/-- Abstract output of TimelineChart.render: the empty-state flag, the
presence of the area and line paths, the y-coordinate of the fixed 10%
reference line, and the (x, y) dot coordinates. -/
structure TimelineRender where
  isEmpty    : Bool
  hasArea    : Bool
  hasLine    : Bool
  thresholdY : ℚ
  points     : List (ℚ × ℚ)
deriving DecidableEq, Repr

/-- TimelineChart.render modelled as a pure geometry function of the
container width and the snapshot buffer. With an empty buffer only the
empty-state message is produced; the area and line paths are emitted
only for more than one snapshot. -/
def timelineRender (W : ℚ) (snaps : List Snapshot) : TimelineRender :=
  if snaps.length = 0 then
    { isEmpty := true, hasArea := false, hasLine := false, thresholdY := 0, points := [] }
  else
    { isEmpty    := false
      hasArea    := decide (1 < snaps.length)
      hasLine    := decide (1 < snaps.length)
      thresholdY := timelineYScale snaps 10
      points     := ((List.range snaps.length).zip snaps).map
        (fun p => (timelineXScale W snaps.length p.1, timelineYScale snaps p.2.riskPct)) }

/-! ### Helper lemmas -/

/-- Membership in a conditional singleton segment of the elevated list. -/
theorem mem_ite_singleton (c : Prop) [Decidable c] (x y : FieldKey) :
    (x ∈ if c then [y] else ([] : List FieldKey)) ↔ c ∧ x = y := by
  by_cases h : c <;> simp [h]

/-- The score at the population means, evaluated exactly. -/
theorem score_MEANS_eq : score MEANS = -1.768035 := by
  norm_num [score, MEANS, BETAS]

/-- The probability at the population means, with the score inlined. -/
theorem computeProbability_MEANS_eq :
    computeProbability MEANS = 1 / (1 + Real.exp 1.768035) := by
  rw [computeProbability, score_MEANS_eq]
  norm_num

/-- The source's explicit 9-term score agrees with the spec-side
`intercept + Σ weight_i × siValue_i` over the field list. -/
theorem score_eq_scoreSpec (siVals : InputRecord) : score siVals = scoreSpec siVals := by
  simp only [score, scoreSpec, FieldKey.all, weight, getField, List.map_cons,
    List.map_nil, List.sum_cons, List.sum_nil]
  ring

/-! ### C1 -/

/-- C1 counterexample: at the population-mean record the contribution
sum is 0 while `score − intercept` is 8.212765, so the claimed identity
`Σ contribution_i = score − intercept` fails far beyond the 1e-9
tolerance. -/
theorem c1_counterexample :
    ¬ (|sumContributions MEANS - (score MEANS - BETAS.sigma)| ≤ 1e-9) := by
  rw [abs_le, not_and_or]
  left
  norm_num [sumContributions, computeContributions, score, FieldKey.all, MEANS, BETAS]

/-- C1 (amended): for every SI input record the contributions sum
exactly to `score − score(MEANS)` — the score centered at the
population-mean record — equivalently `score − intercept − 8.212765`,
since `score(MEANS) = intercept + 8.212765`. -/
theorem c1_contribution_sum (siVals : InputRecord) :
    sumContributions siVals = score siVals - score MEANS ∧
    score MEANS = BETAS.sigma + 8.212765 := by
  constructor
  · simp only [sumContributions, computeContributions, score, FieldKey.all,
      List.map_cons, List.map_nil, List.sum_cons, List.sum_nil]
    ring
  · rw [score_MEANS_eq]; norm_num [BETAS]

/-! ### C2 -/

/-- C2 counterexample: at CONFIG.MEANS the probability is not
`1/(1+e^{9.9808})` and the score is not the intercept: the score is
−1.768035, not −9.9808. -/
theorem c2_counterexample :
    computeProbability MEANS ≠ 1 / (1 + Real.exp 9.9808) ∧
    score MEANS ≠ BETAS.sigma := by
  constructor
  · rw [computeProbability_MEANS_eq]
    have h1 : Real.exp 1.768035 < Real.exp 9.9808 := by
      rw [Real.exp_lt_exp]; norm_num
    have h2 : (0 : ℝ) < 1 + Real.exp 1.768035 := by positivity
    exact ne_of_gt (one_div_lt_one_div_of_lt h2 (by linarith))
  · rw [score_MEANS_eq]; norm_num [BETAS]

/-- C2 (amended): at the population-mean record every contribution is
exactly 0, but the score is `intercept + 8.212765 = −1.768035`, so the
probability is `1/(1+e^{1.768035})`, not `1/(1+e^{9.9808})`. -/
theorem c2_at_population_mean :
    (∀ f, computeContributions MEANS f = 0) ∧
    score MEANS = BETAS.sigma + 8.212765 ∧
    computeProbability MEANS = 1 / (1 + Real.exp 1.768035) := by
  refine ⟨?_, ?_, computeProbability_MEANS_eq⟩
  · intro f; cases f <;> simp [computeContributions]
  · rw [score_MEANS_eq]; norm_num [BETAS]

/-! ### C3 -/

/-- C3: for every (finite, i.e. rational) SI record, the probability is
`1/(1+e^(−score))` with `score = intercept + Σ weight_i × siValue_i`,
and it lies strictly between 0 and 1. -/
theorem c3_probability_form_and_range (siVals : InputRecord) :
    computeProbability siVals = 1 / (1 + Real.exp (-(scoreSpec siVals : ℝ))) ∧
    0 < computeProbability siVals ∧ computeProbability siVals < 1 := by
  refine ⟨?_, ?_, ?_⟩
  · rw [computeProbability, score_eq_scoreSpec]
  · rw [computeProbability]; positivity
  · rw [computeProbability, div_lt_one (by positivity)]
    linarith [Real.exp_pos (-(score siVals : ℝ))]

/-! ### C4 -/

/-- C4: `toSI` with the metric flag returns the record unchanged; with
the US flag it multiplies height and waist by 2.54, glucose by 1/18,
HDL by 1/38.67, triglycerides by 1/88.57, and passes age, blood
pressure, race and parental history through unchanged. It is a total
function with no error conditions. -/
theorem c4_toSI (r : InputRecord) :
    toSI r true = r ∧
    (toSI r false).height = r.height * 2.54 ∧
    (toSI r false).waist = r.waist * 2.54 ∧
    (toSI r false).fastGlu = r.fastGlu * (1 / 18) ∧
    (toSI r false).cholHDL = r.cholHDL * (1 / 38.67) ∧
    (toSI r false).cholTri = r.cholTri * (1 / 88.57) ∧
    (toSI r false).age = r.age ∧
    (toSI r false).sbp = r.sbp ∧
    (toSI r false).race = r.race ∧
    (toSI r false).parentHist = r.parentHist :=
  ⟨rfl, rfl, rfl, rfl, rfl, rfl, rfl, rfl, rfl, rfl⟩

/-! ### C5 -/

/-- C5: the triglyceride flag follows the unit-mode-dependent rule —
SI value ≥ 1.7 when metric, original raw value ≥ 150 when not — and in
particular raw 150 with metric off flags, while SI 150/88.57 with
metric on does not. -/
theorem c5_triglyceride_rule (siVals rawInputs : InputRecord) :
    (FieldKey.cholTri ∈ (getElevatedFactors siVals rawInputs true).1 ↔
      (1.7 : ℚ) ≤ siVals.cholTri) ∧
    (FieldKey.cholTri ∈ (getElevatedFactors siVals rawInputs false).1 ↔
      (150 : ℚ) ≤ rawInputs.cholTri) ∧
    (rawInputs.cholTri = 150 →
      FieldKey.cholTri ∈ (getElevatedFactors siVals rawInputs false).1) ∧
    (siVals.cholTri = 150 / 88.57 →
      FieldKey.cholTri ∉ (getElevatedFactors siVals rawInputs true).1) := by
  have h1 : FieldKey.cholTri ∈ (getElevatedFactors siVals rawInputs true).1 ↔
      (1.7 : ℚ) ≤ siVals.cholTri := by
    simp [getElevatedFactors, List.mem_append, mem_ite_singleton, THRESHOLDS]
  have h2 : FieldKey.cholTri ∈ (getElevatedFactors siVals rawInputs false).1 ↔
      (150 : ℚ) ≤ rawInputs.cholTri := by
    simp [getElevatedFactors, List.mem_append, mem_ite_singleton, THRESHOLDS]
  refine ⟨h1, h2, fun h => h2.mpr (by rw [h]), fun h hmem => ?_⟩
  have := h1.mp hmem
  rw [h] at this
  norm_num at this

/-- C5 witness: the two concrete branches at explicit records. -/
theorem c5_witness :
    FieldKey.cholTri ∈
      (getElevatedFactors MEANS { MEANS with cholTri := 150 } false).1 ∧
    FieldKey.cholTri ∉
      (getElevatedFactors { MEANS with cholTri := 150 / 88.57 } MEANS true).1 :=
  ⟨(c5_triglyceride_rule MEANS { MEANS with cholTri := 150 }).2.2.1 rfl,
   (c5_triglyceride_rule { MEANS with cholTri := 150 / 88.57 } MEANS).2.2.2 rfl⟩

/-! ### C6 -/

/-- C6: glucose is flagged iff SI ≥ 5.6, blood pressure iff ≥ 130, HDL
iff ≤ 1.0, waist iff ≥ 94, and the high-waist flag is true iff
SI waist ≥ 102. -/
theorem c6_elevated_flags (siVals rawInputs : InputRecord) (isMetric : Bool) :
    (FieldKey.fastGlu ∈ (getElevatedFactors siVals rawInputs isMetric).1 ↔
      (5.6 : ℚ) ≤ siVals.fastGlu) ∧
    (FieldKey.sbp ∈ (getElevatedFactors siVals rawInputs isMetric).1 ↔
      (130 : ℚ) ≤ siVals.sbp) ∧
    (FieldKey.cholHDL ∈ (getElevatedFactors siVals rawInputs isMetric).1 ↔
      siVals.cholHDL ≤ (1.0 : ℚ)) ∧
    (FieldKey.waist ∈ (getElevatedFactors siVals rawInputs isMetric).1 ↔
      (94 : ℚ) ≤ siVals.waist) ∧
    ((getElevatedFactors siVals rawInputs isMetric).2 = true ↔
      (102 : ℚ) ≤ siVals.waist) := by
  refine ⟨?_, ?_, ?_, ?_, ?_⟩ <;>
    simp [getElevatedFactors, List.mem_append, mem_ite_singleton, THRESHOLDS]

/-! ### C7 -/

/-- C7: the snapshot buffer is a FIFO ring bounded at 20 — one append
preserves the bound, 25 appends to the empty buffer leave exactly the
last 20 in order (the oldest 5 evicted), and clear empties it. -/
theorem c7_snapshot_buffer :
    (∀ (buf : List Snapshot) (r : ℚ) (v : InputRecord),
        buf.length ≤ MAX_SNAPSHOTS → (addSnapshot buf r v).length ≤ MAX_SNAPSHOTS) ∧
    ((List.range 25).foldl (fun b i => addSnapshot b (i : ℚ) MEANS) [] =
      ((List.range 25).drop 5).map (fun i => { riskPct := (i : ℚ), siVals := MEANS })) ∧
    clearSnapshots = [] := by
  refine ⟨?_, by rfl, rfl⟩
  intro buf r v h
  simp only [addSnapshot, List.length_append, List.length_singleton, MAX_SNAPSHOTS] at *
  split
  · simp only [List.length_drop]
    omega
  · omega

/-- C7 witness: one concrete append stays within the bound. -/
theorem c7_witness : (addSnapshot [] 1 MEANS).length ≤ MAX_SNAPSHOTS :=
  c7_snapshot_buffer.1 [] 1 MEANS (by decide)

/-! ### C8 -/

/-- C8: for a field present in CONFIG.RANGES, the what-if delta is
`(alteredProbability − baselineProbability) × 100` where the altered
record has the field perturbed by `direction × step × 5`, `step` being
the configured slider granularity of the active unit mode; all other
fields of the altered record agree with the input record. -/
theorem c8_what_if_delta (rawInputs : InputRecord) (isMetric : Bool) (f : FieldKey)
    (d : ℚ) (hd : d = -1 ∨ d = 1) (rng : UnitMode → ℚ × ℚ × ℚ)
    (hrng : RANGES f = some rng) :
    computeWhatIfDelta rawInputs isMetric f d =
      (computeProbability (toSI (setField rawInputs f
          (getField rawInputs f +
            d * (rng (if isMetric then UnitMode.si else UnitMode.us)).2.2 * 5)) isMetric) -
        computeProbability (toSI rawInputs isMetric)) * 100 ∧
    (∀ g : FieldKey, g ≠ f →
      getField (setField rawInputs f
        (getField rawInputs f +
          d * (rng (if isMetric then UnitMode.si else UnitMode.us)).2.2 * 5)) g =
      getField rawInputs g) := by
  constructor
  · simp [computeWhatIfDelta, hrng]
  · intro g hg
    cases f <;> cases g <;> first | exact absurd rfl hg | rfl

/-- C8 witness: age slider, US mode, direction +1 (step 1). -/
theorem c8_witness :
    computeWhatIfDelta MEANS false FieldKey.age 1 =
      (computeProbability (toSI (setField MEANS FieldKey.age
          (getField MEANS FieldKey.age + 1 * 1 * 5)) false) -
        computeProbability (toSI MEANS false)) * 100 :=
  (c8_what_if_delta MEANS false FieldKey.age 1 (Or.inr rfl)
    (fun _m => (20, 80, 1)) rfl).1

/-! ### C10 -/

/-- C10: for a field with no CONFIG.RANGES entry the step silently
defaults to 1, so the perturbation is `direction × 5` and the call
still returns the delta formula without failing. -/
theorem c10_default_step (rawInputs : InputRecord) (isMetric : Bool) (f : FieldKey)
    (d : ℚ) (h : RANGES f = none) :
    computeWhatIfDelta rawInputs isMetric f d =
      (computeProbability (toSI (setField rawInputs f
          (getField rawInputs f + d * 5)) isMetric) -
        computeProbability (toSI rawInputs isMetric)) * 100 := by
  simp [computeWhatIfDelta, h, mul_one]

/-- C10 witness: the race field (absent from CONFIG.RANGES). -/
theorem c10_witness :
    computeWhatIfDelta MEANS false FieldKey.race 1 =
      (computeProbability (toSI (setField MEANS FieldKey.race
          (getField MEANS FieldKey.race + 1 * 5)) false) -
        computeProbability (toSI MEANS false)) * 100 :=
  c10_default_step MEANS false FieldKey.race 1 rfl

/-! ### C9 -/

/-- The running maximum in `timelineMaxY` never goes below its seed. -/
theorem foldl_max_init_le (l : List Snapshot) :
    ∀ a : ℚ, a ≤ l.foldl (fun m s => max m s.riskPct) a := by
  induction l with
  | nil => intro a; simp
  | cons s t ih =>
    intro a
    simp only [List.foldl_cons]
    exact le_trans (le_max_left _ _) (ih _)

/-- Every buffered risk percentage is below the running maximum. -/
theorem foldl_max_mem_le (l : List Snapshot) :
    ∀ (a : ℚ) (s : Snapshot), s ∈ l →
      s.riskPct ≤ l.foldl (fun m s => max m s.riskPct) a := by
  induction l with
  | nil => intro a s h; cases h
  | cons r t ih =>
    intro a s h
    simp only [List.foldl_cons]
    rcases List.mem_cons.mp h with rfl | h2
    · exact le_trans (le_max_right _ _) (foldl_max_init_le t _)
    · exact ih _ s h2

/-- Values between 0 and the vertical maximum map inside the plot band
`[PAD.top, PAD.top + plotH]`. -/
theorem timelineYScale_bounds (snaps : List Snapshot) (v : ℚ)
    (h0 : 0 ≤ v) (h1 : v ≤ timelineMaxY snaps) :
    PAD_top ≤ timelineYScale snaps v ∧ timelineYScale snaps v ≤ PAD_top + plotH := by
  have hm : (50 : ℚ) ≤ timelineMaxY snaps := foldl_max_init_le snaps 50
  have hpos : (0 : ℚ) < timelineMaxY snaps := by linarith
  have hr0 : 0 ≤ v / timelineMaxY snaps := div_nonneg h0 (le_of_lt hpos)
  have hr1 : v / timelineMaxY snaps ≤ 1 := (div_le_one hpos).mpr h1
  unfold timelineYScale plotH TIMELINE_H PAD_top PAD_bottom
  constructor <;> nlinarith

/-- C9: the timeline maps over a vertical range `[0, max(50, max
observed risk)]`, keeps the 10% reference line and all data points
inside the plot band, centers a lone snapshot horizontally with no
line or area path, and renders an explicit empty state for an empty
buffer. -/
theorem c9_timeline_geometry (W : ℚ) (snaps : List Snapshot) :
    (snaps = [] → timelineRender W snaps =
      { isEmpty := true, hasArea := false, hasLine := false,
        thresholdY := 0, points := [] }) ∧
    50 ≤ timelineMaxY snaps ∧
    (∀ s ∈ snaps, s.riskPct ≤ timelineMaxY snaps) ∧
    (snaps ≠ [] → (timelineRender W snaps).thresholdY = timelineYScale snaps 10 ∧
      PAD_top ≤ timelineYScale snaps 10 ∧
      timelineYScale snaps 10 ≤ PAD_top + plotH) ∧
    ((∀ s ∈ snaps, 0 ≤ s.riskPct) →
      ∀ p ∈ (timelineRender W snaps).points,
        PAD_top ≤ p.2 ∧ p.2 ≤ PAD_top + plotH) ∧
    (snaps.length = 1 →
      (timelineRender W snaps).hasLine = false ∧
      (timelineRender W snaps).hasArea = false ∧
      (timelineRender W snaps).points.map Prod.fst = [PAD_left + plotW W / 2]) := by
  refine ⟨?_, foldl_max_init_le snaps 50,
    fun s hs => foldl_max_mem_le snaps 50 s hs, ?_, ?_, ?_⟩
  · intro h; subst h; rfl
  · intro hne
    have hlen : ¬ snaps.length = 0 := fun h => hne (List.length_eq_zero.mp h)
    refine ⟨?_, timelineYScale_bounds snaps 10 (by norm_num)
      (le_trans (by norm_num) (foldl_max_init_le snaps 50))⟩
    simp [timelineRender, hlen]
  · intro hnn p hp
    simp only [timelineRender] at hp
    split at hp
    · simp at hp
    · simp only [List.mem_map] at hp
      obtain ⟨q, hq, rfl⟩ := hp
      have hmem : q.2 ∈ snaps := (List.of_mem_zip hq).2
      exact timelineYScale_bounds snaps q.2.riskPct (hnn q.2 hmem)
        (foldl_max_mem_le snaps 50 q.2 hmem)
  · intro h1
    obtain ⟨s, rfl⟩ := List.length_eq_one.mp h1
    exact ⟨rfl, rfl, rfl⟩

/-- C9 witness: a single concrete snapshot is centered with no line
or area. -/
theorem c9_witness :
    (timelineRender 250 [⟨30, MEANS⟩]).hasLine = false ∧
    (timelineRender 250 [⟨30, MEANS⟩]).hasArea = false ∧
    (timelineRender 250 [⟨30, MEANS⟩]).points.map Prod.fst =
      [PAD_left + plotW 250 / 2] :=
  (c9_timeline_geometry 250 [⟨30, MEANS⟩]).2.2.2.2.2 rfl
